import Mathlib

/-!
Shallow embedding of `crypto/evp/mac_lib.c` (the EVP_MAC dispatch layer).

Modelling conventions:
* The algorithm-private state pointer (`void *data`) is an abstract type `D`;
  a possibly-NULL pointer is `Option D`.
* A Method Descriptor (`EVP_MAC`) is a record of its function entries, exactly
  the ones `mac_lib.c` calls.  Entries that the C code may call with a NULL
  `data` pointer take `Option D`; entries the C code only ever calls with a
  non-NULL pointer (copy, free, reset) take `D`.
* Every wrapper returns, besides its C return value, a list of `Ev` events
  recording which descriptor entries were invoked, with which arguments, and
  which heap blocks were released.  This call log is what claims about
  "invokes X", "in that order", "releases Y" are stated against.
* Dereferencing a NULL pointer is modelled as `Except.error Crash.nullDeref`;
  functions that cannot dereference NULL return plain values.
* Machine integer return codes are `Int`; sizes and lengths are `Nat`;
  `INT_MAX = 2^31 - 1`.
-/

/-- A crash of the C program (undefined behaviour). The only one this file
can produce is a NULL-pointer dereference. -/
inductive Crash where
  | nullDeref
deriving DecidableEq, Repr

/-- The (pointer, length) pair that the convenience wrappers pass through the
variadic part of `EVP_MAC_ctrl`. Bytes are `Nat` values. -/
structure CtrlArgs where
  buf : List Nat
  len : Nat
deriving DecidableEq, Repr

/-- Events recorded by the embedding: descriptor-entry invocations (with the
`data` pointer and arguments they receive) and heap releases. -/
inductive Ev (D : Type) where
  /-- `mac->new()` was invoked. -/
  | descNew
  /-- `meth->free(d)` was invoked on private state `d`. -/
  | descFree (d : D)
  /-- `meth->copy(d)` was invoked on source private state `d`. -/
  | descCopy (d : D)
  /-- `meth->reset(d)` was invoked. -/
  | descReset (d : D)
  /-- `meth->init(data)` was invoked. -/
  | descInit (data : Option D)
  /-- `meth->update(data, bytes)` was invoked. -/
  | descUpdate (data : Option D) (bytes : List Nat)
  /-- `meth->final(data, out)` was invoked. -/
  | descFinal (data : Option D)
  /-- `meth->size(data)` was invoked. -/
  | descSize (data : Option D)
  /-- `meth->ctrl(data, cmd, args)` was invoked. -/
  | descCtrl (data : Option D) (cmd : Int) (args : CtrlArgs)
  /-- control flow entered `EVP_MAC_ctrl` with this command and argument. -/
  | routerCtrl (cmd : Int) (args : CtrlArgs)
  /-- `OPENSSL_free(ctx)` released a non-NULL context block. -/
  | releaseCtx
  /-- `OPENSSL_free(bin)` released the decoded hex buffer. -/
  | releaseBin
deriving DecidableEq, Repr

/-- The Method Descriptor (`struct evp_mac_st`): the table of function entries
that `mac_lib.c` dispatches through. `ctrl` is optional because the C code
checks `ctx->meth->ctrl != NULL`. Entries return `Int` status codes as in C;
`size` returns a `size_t` modelled as `Nat`. -/
structure EVP_MAC (D : Type) where
  new : Option D
  copy : D → Option D
  reset : D → Int
  size : Option D → Nat
  init : Option D → Int
  update : Option D → List Nat → Int
  final : Option D → Int
  ctrl : Option (Option D → Int → CtrlArgs → Int)

/-- The MAC Context (`struct evp_mac_ctx_st`): a descriptor reference and the
algorithm-private state pointer. Both are possibly-NULL pointers; a context
fresh out of `OPENSSL_zalloc` has both fields NULL. -/
structure EVP_MAC_CTX (D : Type) where
  meth : Option (EVP_MAC D)
  data : Option D

/-- `INT_MAX` for the 32-bit `int` of the C ABI. -/
def INT_MAX : Nat := 2 ^ 31 - 1

/-- Modelled from the spec: the reserved "set key" command code
(`EVP_MAC_CTRL_SET_KEY`), defined in a header that is not part of `src/`;
only its identity matters to this file, not its numeric value. -/
def EVP_MAC_CTRL_SET_KEY : Int := 1

/-- `EVP_MAC_CTX_new(mac)`. `allocOk` says whether `OPENSSL_zalloc` succeeds.
Follows the source exactly: if allocation fails or `mac->new()` returns NULL,
the context is freed and `ctx` is set to NULL, after which the source
unconditionally executes `ctx->meth = mac;` - on the failure paths that is a
write through a NULL pointer, i.e. a crash. -/
def EVP_MAC_CTX_new {D : Type} (mac : EVP_MAC D) (allocOk : Bool) :
    Except Crash (Option (EVP_MAC_CTX D) × List (Ev D)) :=
  if allocOk then
    -- ctx = zalloc succeeded: ctx->data = mac->new() is evaluated
    match mac.new with
    | none =>
        -- ctx freed, ctx = NULL, then `ctx->meth = mac` dereferences NULL
        Except.error Crash.nullDeref
    | some d =>
        Except.ok (some ⟨some mac, some d⟩, [Ev.descNew])
  else
    -- ctx == NULL short-circuits the condition; OPENSSL_free(NULL) is a
    -- no-op; ctx stays NULL; then `ctx->meth = mac` dereferences NULL
    Except.error Crash.nullDeref

/-- `evp_mac_ctx_cleanup(ctx)`: if the context and its private state are both
present, invoke `ctx->meth->free(ctx->data)` and clear the data pointer.
Returns the updated context and the event log. -/
def evp_mac_ctx_cleanup {D : Type} (ctx : Option (EVP_MAC_CTX D)) :
    Except Crash (Option (EVP_MAC_CTX D) × List (Ev D)) :=
  match ctx with
  | none => Except.ok (none, [])
  | some c =>
      match c.data with
      | none => Except.ok (some c, [])
      | some d =>
          match c.meth with
          | none => Except.error Crash.nullDeref
          | some _ => Except.ok (some { c with data := none }, [Ev.descFree d])

/-- `EVP_MAC_CTX_free(ctx)`: cleanup, then `OPENSSL_free(ctx)` (a no-op on
NULL). Returns the event log of the whole call. -/
def EVP_MAC_CTX_free {D : Type} (ctx : Option (EVP_MAC_CTX D)) :
    Except Crash (List (Ev D)) :=
  match evp_mac_ctx_cleanup ctx with
  | Except.error e => Except.error e
  | Except.ok (c2, log) =>
      match c2 with
      | none => Except.ok log
      | some _ => Except.ok (log ++ [Ev.releaseCtx])

/-- `EVP_MAC_CTX_copy(dst, src)`: `*dst = *src` (structure assignment), then
if `src->data != NULL`, `dst->data = dst->meth->copy(src->data)`; a NULL copy
result means failure (return 0) with `dst->data` left NULL. Returns the new
value of `*dst`, the C return value and the event log. -/
def EVP_MAC_CTX_copy {D : Type} (dst src : EVP_MAC_CTX D) :
    Except Crash (EVP_MAC_CTX D × Int × List (Ev D)) :=
  -- *dst = *src makes dst ⟨src.meth, src.data⟩ before the copy call
  match src.data with
  | none => Except.ok (⟨src.meth, none⟩, 1, [])
  | some s =>
      match src.meth with
      | none => Except.error Crash.nullDeref
      | some m =>
          match m.copy s with
          | none => Except.ok (⟨src.meth, none⟩, 0, [Ev.descCopy s])
          | some s2 => Except.ok (⟨src.meth, some s2⟩, 1, [Ev.descCopy s])

/-- `EVP_MAC_reset(ctx)`: delegate to `ctx->meth->reset` when private state is
present, otherwise return 1 without any descriptor call. -/
def EVP_MAC_reset {D : Type} (ctx : EVP_MAC_CTX D) :
    Except Crash (Int × List (Ev D)) :=
  match ctx.data with
  | none => Except.ok (1, [])
  | some d =>
      match ctx.meth with
      | none => Except.error Crash.nullDeref
      | some m => Except.ok (m.reset d, [Ev.descReset d])

/-- `EVP_MAC_size(ctx)`: delegate to `ctx->meth->size(ctx->data)` when private
state is present, otherwise return 0. -/
def EVP_MAC_size {D : Type} (ctx : EVP_MAC_CTX D) :
    Except Crash (Nat × List (Ev D)) :=
  match ctx.data with
  | none => Except.ok (0, [])
  | some _ =>
      match ctx.meth with
      | none => Except.error Crash.nullDeref
      | some m => Except.ok (m.size ctx.data, [Ev.descSize ctx.data])

/-- `EVP_MAC_init(ctx)`: delegate to `ctx->meth->init(ctx->data)`
unconditionally. -/
def EVP_MAC_init {D : Type} (ctx : EVP_MAC_CTX D) :
    Except Crash (Int × List (Ev D)) :=
  match ctx.meth with
  | none => Except.error Crash.nullDeref
  | some m => Except.ok (m.init ctx.data, [Ev.descInit ctx.data])

/-- `EVP_MAC_update(ctx, data, datalen)`: delegate to `ctx->meth->update`
unconditionally. The byte buffer and its length are modelled as one list. -/
def EVP_MAC_update {D : Type} (ctx : EVP_MAC_CTX D) (bytes : List Nat) :
    Except Crash (Int × List (Ev D)) :=
  match ctx.meth with
  | none => Except.error Crash.nullDeref
  | some m => Except.ok (m.update ctx.data bytes, [Ev.descUpdate ctx.data bytes])

/-- Result of `EVP_MAC_final`: the C return value, the value written through
`*poutlen` (`none` when the `poutlen` pointer was NULL), and the event log. -/
structure FinalRes (D : Type) where
  ret : Int
  outlen : Option Nat
  log : List (Ev D)

/-- `EVP_MAC_final(ctx, out, poutlen)`: when `poutlen != NULL` write
`ctx->meth->size(ctx->data)` through it; when `out == NULL` return 1 without
calling the final entry; otherwise return `ctx->meth->final(ctx->data, out)`.
`outPresent` and `poutlenPresent` model the NULL-ness of the two pointers. -/
def EVP_MAC_final {D : Type} (ctx : EVP_MAC_CTX D)
    (outPresent poutlenPresent : Bool) : Except Crash (FinalRes D) :=
  if poutlenPresent then
    match ctx.meth with
    | none => Except.error Crash.nullDeref
    | some m =>
        if outPresent then
          Except.ok ⟨m.final ctx.data, some (m.size ctx.data),
                     [Ev.descSize ctx.data, Ev.descFinal ctx.data]⟩
        else
          Except.ok ⟨1, some (m.size ctx.data), [Ev.descSize ctx.data]⟩
  else
    if outPresent then
      match ctx.meth with
      | none => Except.error Crash.nullDeref
      | some m => Except.ok ⟨m.final ctx.data, none, [Ev.descFinal ctx.data]⟩
    else
      Except.ok ⟨1, none, []⟩

/-- `EVP_MAC_ctrl(ctx, cmd, ...)`: return -2 when the context or its
descriptor reference is NULL; otherwise dispatch to `ctx->meth->ctrl` when
that entry exists and return -2 when it does not. Never dereferences NULL,
so it returns plain values. The `routerCtrl` event marks entry into the
router itself. -/
def EVP_MAC_ctrl {D : Type} (ctx : Option (EVP_MAC_CTX D)) (cmd : Int)
    (args : CtrlArgs) : Int × List (Ev D) :=
  match ctx with
  | none => (-2, [Ev.routerCtrl cmd args])
  | some c =>
      match c.meth with
      | none => (-2, [Ev.routerCtrl cmd args])
      | some m =>
          match m.ctrl with
          | none => (-2, [Ev.routerCtrl cmd args])
          | some f =>
              (f c.data cmd args,
               [Ev.routerCtrl cmd args, Ev.descCtrl c.data cmd args])

/-- `EVP_MAC_str2ctrl(ctx, cmd, value)`: `len = strlen(value)`; return -1 when
`len > INT_MAX`, otherwise forward `(value, len)` to `EVP_MAC_ctrl`. The C
string is modelled as its list of bytes before the terminator, so `strlen`
is the list length. -/
def EVP_MAC_str2ctrl {D : Type} (ctx : Option (EVP_MAC_CTX D)) (cmd : Int)
    (value : List Nat) : Int × List (Ev D) :=
  if value.length > INT_MAX then (-1, [])
  else EVP_MAC_ctrl ctx cmd ⟨value, value.length⟩

/-- `EVP_MAC_hex2ctrl(ctx, cmd, hex)`: `OPENSSL_hexstr2buf` is the external
hex-decoding collaborator, so its outcome is a parameter: `decoded = none`
models decode failure (return 0, nothing to free), `decoded = some bin`
models a successfully decoded buffer of `binlen = bin.length` bytes. When
`binlen <= INT_MAX` the bytes and length are forwarded to `EVP_MAC_ctrl`;
otherwise `rv` keeps its initial value -1; in both cases the buffer is
released (`releaseBin`) before returning. -/
def EVP_MAC_hex2ctrl {D : Type} (ctx : Option (EVP_MAC_CTX D)) (cmd : Int)
    (decoded : Option (List Nat)) : Int × List (Ev D) :=
  match decoded with
  | none => (0, [])
  | some bin =>
      if bin.length ≤ INT_MAX then
        let r := EVP_MAC_ctrl ctx cmd ⟨bin, bin.length⟩
        (r.1, r.2 ++ [Ev.releaseBin])
      else (-1, [Ev.releaseBin])

/-- `EVP_MAC_oneshot(mac, key, keylen, data, datalen, out, poutlen)`:
`ctx = EVP_MAC_CTX_new(mac)`, then the short-circuit chain
`ctx == NULL || !init || !ctrl(SET_KEY, key, keylen) || !update || !final`
sets `ok = 0` on its first true condition (a step "fails" for `!` exactly
when it returns 0), then `EVP_MAC_CTX_free(ctx)` runs and `ok` is returned.
The key is passed as a `(key, keylen)` pair through the router. -/
def EVP_MAC_oneshot {D : Type} (mac : EVP_MAC D) (allocOk : Bool)
    (key : List Nat) (keylen : Nat) (data : List Nat)
    (outPresent poutlenPresent : Bool) :
    Except Crash (Int × Option Nat × List (Ev D)) :=
  match EVP_MAC_CTX_new mac allocOk with
  | Except.error e => Except.error e
  | Except.ok (octx, log0) =>
      match octx with
      | none =>
          -- ctx == NULL: ok = 0; EVP_MAC_CTX_free(NULL) is a no-op
          Except.ok (0, none, log0)
      | some ctx =>
          match EVP_MAC_init ctx with
          | Except.error e => Except.error e
          | Except.ok (ri, log1) =>
              if ri = 0 then
                match EVP_MAC_CTX_free (some ctx) with
                | Except.error e => Except.error e
                | Except.ok logf => Except.ok (0, none, log0 ++ log1 ++ logf)
              else
                match EVP_MAC_ctrl (some ctx) EVP_MAC_CTRL_SET_KEY
                    ⟨key, keylen⟩ with
                | (rc, log2) =>
                    if rc = 0 then
                      match EVP_MAC_CTX_free (some ctx) with
                      | Except.error e => Except.error e
                      | Except.ok logf =>
                          Except.ok (0, none, log0 ++ log1 ++ log2 ++ logf)
                    else
                      match EVP_MAC_update ctx data with
                      | Except.error e => Except.error e
                      | Except.ok (ru, log3) =>
                          if ru = 0 then
                            match EVP_MAC_CTX_free (some ctx) with
                            | Except.error e => Except.error e
                            | Except.ok logf =>
                                Except.ok (0, none,
                                  log0 ++ log1 ++ log2 ++ log3 ++ logf)
                          else
                            match EVP_MAC_final ctx outPresent
                                poutlenPresent with
                            | Except.error e => Except.error e
                            | Except.ok fr =>
                                match EVP_MAC_CTX_free (some ctx) with
                                | Except.error e => Except.error e
                                | Except.ok logf =>
                                    Except.ok
                                      ((if fr.ret = 0 then 0 else 1),
                                       fr.outlen,
                                       log0 ++ log1 ++ log2 ++ log3
                                         ++ fr.log ++ logf)

/-- A concrete well-behaved Method Descriptor over `Nat` private state, used
to evaluate the embedding at specific inputs. -/
def macGood : EVP_MAC Nat where
  new := some 7
  copy := fun s => some (s + 1)
  reset := fun _ => 1
  size := fun _ => 16
  init := fun _ => 1
  update := fun _ _ => 1
  final := fun _ => 1
  ctrl := some fun _ _ _ => 1

/-- `macGood` with a failing `new` entry (construct returns NULL). -/
def macNewFails : EVP_MAC Nat := { macGood with new := none }

/-- `macGood` with no `ctrl` entry at all. -/
def macNoCtrl : EVP_MAC Nat := { macGood with ctrl := none }

/-- `macGood` with a failing `copy` entry (duplication returns NULL). -/
def macCopyFails : EVP_MAC Nat := { macGood with copy := fun _ => none }

/-- Claim C1 (code bug): the spec says Create fails when allocation or
construct() fails and that on failure the caller receives NULL. The source
instead executes `ctx->meth = mac;` after having set `ctx = NULL` on the
failure paths, a NULL-pointer write: with a descriptor whose construct()
returns NULL, and likewise when allocation fails, `EVP_MAC_CTX_new` crashes
instead of returning NULL. -/
theorem EVP_MAC_CTX_new_failure_crashes :
    EVP_MAC_CTX_new macNewFails true = Except.error Crash.nullDeref
  ∧ EVP_MAC_CTX_new macGood false = Except.error Crash.nullDeref := by
  exact ⟨rfl, rfl⟩

/-- Claim C2: `EVP_MAC_final` on a context holding descriptor `m` returns,
for every NULL-ness of the output buffer and of the out-length pointer:
return value `m.final` only when the buffer is present and 1 otherwise, an
out-length write of `m.size(ctx->data)` exactly when the out-length pointer
is present (even with an absent buffer), and a call log invoking the final
entry only when the buffer is present - so a NULL buffer yields success
without invoking final. -/
theorem EVP_MAC_final_spec {D : Type} (ctx : EVP_MAC_CTX D) (m : EVP_MAC D)
    (outP poutP : Bool) (hm : ctx.meth = some m) :
    EVP_MAC_final ctx outP poutP = Except.ok
      ⟨if outP then m.final ctx.data else 1,
       if poutP then some (m.size ctx.data) else none,
       (if poutP then [Ev.descSize ctx.data] else [])
         ++ (if outP then [Ev.descFinal ctx.data] else [])⟩ := by
  cases outP <;> cases poutP <;> simp [EVP_MAC_final, hm]

/-- Witness for C2: size-query mode (NULL buffer, non-NULL out-length) on a
concrete context writes the descriptor size 16 and returns 1 with no call to
the final entry. -/
theorem EVP_MAC_final_spec_witness :
    EVP_MAC_final ⟨some macGood, some 7⟩ false true
      = Except.ok ⟨1, some 16, [Ev.descSize (some 7)]⟩ := by
  simpa using EVP_MAC_final_spec ⟨some macGood, some 7⟩ macGood false true rfl

/-- Claim C3: the control router returns -2 with no descriptor-entry call
when the context or its descriptor reference is NULL, returns -2 with no
descriptor-entry call when the descriptor has no ctrl entry, and otherwise
returns exactly what the descriptor's ctrl entry returns. It never crashes
(it is a total function into plain pairs). -/
theorem EVP_MAC_ctrl_spec {D : Type} (ctx : Option (EVP_MAC_CTX D))
    (c : EVP_MAC_CTX D) (m : EVP_MAC D) (f : Option D → Int → CtrlArgs → Int)
    (cmd : Int) (args : CtrlArgs) :
    ((Option.bind ctx fun x => x.meth) = none →
        EVP_MAC_ctrl ctx cmd args = (-2, [Ev.routerCtrl cmd args]))
  ∧ (c.meth = some m → m.ctrl = none →
        EVP_MAC_ctrl (some c) cmd args = (-2, [Ev.routerCtrl cmd args]))
  ∧ (c.meth = some m → m.ctrl = some f →
        EVP_MAC_ctrl (some c) cmd args
          = (f c.data cmd args,
             [Ev.routerCtrl cmd args, Ev.descCtrl c.data cmd args])) := by
  refine ⟨?_, ?_, ?_⟩
  · intro h
    cases ctx with
    | none => rfl
    | some c0 =>
        cases hmeth : c0.meth with
        | none => simp [EVP_MAC_ctrl, hmeth]
        | some _ => simp [hmeth] at h
  · intro h1 h2
    simp [EVP_MAC_ctrl, h1, h2]
  · intro h1 h2
    simp [EVP_MAC_ctrl, h1, h2]

/-- Witness for C3: a NULL context, a descriptor without a ctrl entry, and a
descriptor whose ctrl entry returns 1, each at command 5. -/
theorem EVP_MAC_ctrl_spec_witness :
    EVP_MAC_ctrl (none : Option (EVP_MAC_CTX Nat)) 5 ⟨[], 0⟩
      = (-2, [Ev.routerCtrl 5 ⟨[], 0⟩])
  ∧ EVP_MAC_ctrl (some ⟨some macNoCtrl, some 7⟩) 5 ⟨[], 0⟩
      = (-2, [Ev.routerCtrl 5 ⟨[], 0⟩])
  ∧ EVP_MAC_ctrl (some ⟨some macGood, some 7⟩) 5 ⟨[], 0⟩
      = (1, [Ev.routerCtrl 5 ⟨[], 0⟩, Ev.descCtrl (some 7) 5 ⟨[], 0⟩]) := by
  refine ⟨?_, ?_, ?_⟩
  · exact (EVP_MAC_ctrl_spec none ⟨some macNoCtrl, some 7⟩ macNoCtrl
      (fun _ _ _ => 1) 5 ⟨[], 0⟩).1 rfl
  · exact (EVP_MAC_ctrl_spec (some ⟨some macNoCtrl, some 7⟩)
      ⟨some macNoCtrl, some 7⟩ macNoCtrl (fun _ _ _ => 1) 5 ⟨[], 0⟩).2.1 rfl rfl
  · simpa using (EVP_MAC_ctrl_spec (some ⟨some macGood, some 7⟩)
      ⟨some macGood, some 7⟩ macGood (fun _ _ _ => 1) 5 ⟨[], 0⟩).2.2 rfl rfl

/-- Claim C4 (code bug): when Create fails (construct() returning NULL, or
allocation failure) the one-shot crashes inside `EVP_MAC_CTX_new` (the C1
null dereference) instead of stopping with 0 after guaranteed cleanup as the
spec states; when every step succeeds it does perform construct, init,
set-key control, update, final in exactly that order, returns 1, and
releases the context (destroy then context release) at the end. -/
theorem EVP_MAC_oneshot_create_failure_crashes :
    EVP_MAC_oneshot macNewFails true [9] 1 [1, 2] true true
      = Except.error Crash.nullDeref
  ∧ EVP_MAC_oneshot macGood false [9] 1 [1, 2] true true
      = Except.error Crash.nullDeref
  ∧ EVP_MAC_oneshot macGood true [9] 1 [1, 2] true true
      = Except.ok (1, some 16,
          [Ev.descNew, Ev.descInit (some 7),
           Ev.routerCtrl EVP_MAC_CTRL_SET_KEY ⟨[9], 1⟩,
           Ev.descCtrl (some 7) EVP_MAC_CTRL_SET_KEY ⟨[9], 1⟩,
           Ev.descUpdate (some 7) [1, 2],
           Ev.descSize (some 7), Ev.descFinal (some 7),
           Ev.descFree 7, Ev.releaseCtx]) := by
  exact ⟨rfl, rfl, rfl⟩

/-- Claim C5: the hex control wrapper returns 0 when decoding fails (no
buffer was produced, so nothing is released); returns -1 with the decoded
buffer released but nothing forwarded (no router entry in the log) when the
decoded length exceeds INT_MAX; and otherwise forwards the decoded bytes and
their length to the router, returns the router's result, and releases the
buffer after the router's events. -/
theorem EVP_MAC_hex2ctrl_spec {D : Type} (ctx : Option (EVP_MAC_CTX D))
    (cmd : Int) (bin : List Nat) :
    EVP_MAC_hex2ctrl ctx cmd none = (0, ([] : List (Ev D)))
  ∧ (bin.length > INT_MAX →
        EVP_MAC_hex2ctrl ctx cmd (some bin) = (-1, [Ev.releaseBin]))
  ∧ (bin.length ≤ INT_MAX →
        EVP_MAC_hex2ctrl ctx cmd (some bin)
          = ((EVP_MAC_ctrl ctx cmd ⟨bin, bin.length⟩).1,
             (EVP_MAC_ctrl ctx cmd ⟨bin, bin.length⟩).2
               ++ [Ev.releaseBin])) := by
  refine ⟨rfl, ?_, ?_⟩
  · intro h
    simp [EVP_MAC_hex2ctrl, Nat.not_le_of_lt h]
  · intro h
    simp [EVP_MAC_hex2ctrl, h]

/-- Witness for C5: decode failure returns 0; a decoded buffer of 2^31 bytes
(length INT_MAX + 1) returns -1 and only releases the buffer; the decoded
bytes [0, 255] are forwarded to the router and the buffer is released last. -/
theorem EVP_MAC_hex2ctrl_spec_witness :
    EVP_MAC_hex2ctrl (some (⟨some macGood, some 7⟩ : EVP_MAC_CTX Nat)) 3 none
      = (0, [])
  ∧ EVP_MAC_hex2ctrl (some (⟨some macGood, some 7⟩ : EVP_MAC_CTX Nat)) 3
        (some (List.replicate (2 ^ 31) 0)) = (-1, [Ev.releaseBin])
  ∧ EVP_MAC_hex2ctrl (some (⟨some macGood, some 7⟩ : EVP_MAC_CTX Nat)) 3
        (some [0, 255])
      = (1, [Ev.routerCtrl 3 ⟨[0, 255], 2⟩,
             Ev.descCtrl (some 7) 3 ⟨[0, 255], 2⟩, Ev.releaseBin]) := by
  refine ⟨?_, ?_, ?_⟩
  · exact (EVP_MAC_hex2ctrl_spec (some ⟨some macGood, some 7⟩) 3 []).1
  · exact (EVP_MAC_hex2ctrl_spec (some ⟨some macGood, some 7⟩) 3
      (List.replicate (2 ^ 31) 0)).2.1 (by norm_num [INT_MAX])
  · simpa using (EVP_MAC_hex2ctrl_spec (some ⟨some macGood, some 7⟩) 3
      [0, 255]).2.2 (by norm_num [INT_MAX])

/-- Claim C6: Copy makes the destination carry the source's descriptor
reference in every case; with source private state present it stores the
deep duplicate produced by the copy entry and returns 1, or returns 0 when
duplication fails; with no source private state the destination ends with
none and Copy returns 1. -/
theorem EVP_MAC_CTX_copy_spec {D : Type} (dst src : EVP_MAC_CTX D)
    (m : EVP_MAC D) (s d2 : D) (hm : src.meth = some m) :
    (src.data = none →
        EVP_MAC_CTX_copy dst src = Except.ok (⟨src.meth, none⟩, 1, []))
  ∧ (src.data = some s → m.copy s = none →
        EVP_MAC_CTX_copy dst src
          = Except.ok (⟨src.meth, none⟩, 0, [Ev.descCopy s]))
  ∧ (src.data = some s → m.copy s = some d2 →
        EVP_MAC_CTX_copy dst src
          = Except.ok (⟨src.meth, some d2⟩, 1, [Ev.descCopy s])) := by
  refine ⟨?_, ?_, ?_⟩
  · intro h
    simp [EVP_MAC_CTX_copy, h]
  · intro h hc
    simp [EVP_MAC_CTX_copy, h, hm, hc]
  · intro h hc
    simp [EVP_MAC_CTX_copy, h, hm, hc]

/-- Witness for C6: a stateless source copies as (meth, none) with result 1;
a failing duplicate yields result 0 and a NULL destination state; a
successful duplicate (7 duplicates to 8) yields result 1. -/
theorem EVP_MAC_CTX_copy_spec_witness :
    EVP_MAC_CTX_copy (⟨some macGood, some 0⟩ : EVP_MAC_CTX Nat)
        ⟨some macGood, none⟩ = Except.ok (⟨some macGood, none⟩, 1, [])
  ∧ EVP_MAC_CTX_copy (⟨some macCopyFails, none⟩ : EVP_MAC_CTX Nat)
        ⟨some macCopyFails, some 7⟩
      = Except.ok (⟨some macCopyFails, none⟩, 0, [Ev.descCopy 7])
  ∧ EVP_MAC_CTX_copy (⟨some macGood, none⟩ : EVP_MAC_CTX Nat)
        ⟨some macGood, some 7⟩
      = Except.ok (⟨some macGood, some 8⟩, 1, [Ev.descCopy 7]) := by
  refine ⟨?_, ?_, ?_⟩
  · exact (EVP_MAC_CTX_copy_spec ⟨some macGood, some 0⟩ ⟨some macGood, none⟩
      macGood 7 8 rfl).1 rfl
  · exact (EVP_MAC_CTX_copy_spec ⟨some macCopyFails, none⟩
      ⟨some macCopyFails, some 7⟩ macCopyFails 7 8 rfl).2.1 rfl rfl
  · exact (EVP_MAC_CTX_copy_spec ⟨some macGood, none⟩ ⟨some macGood, some 7⟩
      macGood 7 8 rfl).2.2 rfl rfl

/-- Claim C7: Free on a NULL context is a no-op; on a context with no private
state it only releases the context block, never invoking the destroy entry;
on a context with private state it invokes destroy on that state exactly
once and then releases the context. -/
theorem EVP_MAC_CTX_free_spec {D : Type} (c : EVP_MAC_CTX D) (m : EVP_MAC D)
    (d : D) (hm : c.meth = some m) :
    EVP_MAC_CTX_free (none : Option (EVP_MAC_CTX D)) = Except.ok []
  ∧ (c.data = none →
        EVP_MAC_CTX_free (some c) = Except.ok [Ev.releaseCtx])
  ∧ (c.data = some d →
        EVP_MAC_CTX_free (some c)
          = Except.ok [Ev.descFree d, Ev.releaseCtx]) := by
  refine ⟨rfl, ?_, ?_⟩
  · intro h
    simp [EVP_MAC_CTX_free, evp_mac_ctx_cleanup, h]
  · intro h
    simp [EVP_MAC_CTX_free, evp_mac_ctx_cleanup, h, hm]

/-- Witness for C7: freeing NULL is a no-op; freeing a stateless context
releases only the context; freeing a context with state 7 destroys 7 once
and then releases the context. -/
theorem EVP_MAC_CTX_free_spec_witness :
    EVP_MAC_CTX_free (none : Option (EVP_MAC_CTX Nat)) = Except.ok []
  ∧ EVP_MAC_CTX_free (some (⟨some macGood, none⟩ : EVP_MAC_CTX Nat))
      = Except.ok [Ev.releaseCtx]
  ∧ EVP_MAC_CTX_free (some (⟨some macGood, some 7⟩ : EVP_MAC_CTX Nat))
      = Except.ok [Ev.descFree 7, Ev.releaseCtx] := by
  refine ⟨?_, ?_, ?_⟩
  · exact (EVP_MAC_CTX_free_spec (⟨some macGood, none⟩ : EVP_MAC_CTX Nat)
      macGood 7 rfl).1
  · exact (EVP_MAC_CTX_free_spec ⟨some macGood, none⟩ macGood 7 rfl).2.1 rfl
  · exact (EVP_MAC_CTX_free_spec ⟨some macGood, some 7⟩ macGood 7 rfl).2.2 rfl

/-- Claim C8: the string control wrapper returns -1 without entering the
router (empty log: no routerCtrl event) when the text's byte length exceeds
INT_MAX, and otherwise its result - value and events - is exactly that of the
router applied to the text bytes and their length. -/
theorem EVP_MAC_str2ctrl_spec {D : Type} (ctx : Option (EVP_MAC_CTX D))
    (cmd : Int) (value : List Nat) :
    (value.length > INT_MAX → EVP_MAC_str2ctrl ctx cmd value = (-1, []))
  ∧ (value.length ≤ INT_MAX →
        EVP_MAC_str2ctrl ctx cmd value
          = EVP_MAC_ctrl ctx cmd ⟨value, value.length⟩) := by
  refine ⟨?_, ?_⟩
  · intro h
    simp [EVP_MAC_str2ctrl, h]
  · intro h
    simp [EVP_MAC_str2ctrl, Nat.not_lt_of_le h]

/-- Witness for C8: a 2^31-byte text (length INT_MAX + 1) is rejected with -1
and no router entry; the two-byte text [104, 105] is forwarded with length 2
to the router. -/
theorem EVP_MAC_str2ctrl_spec_witness :
    EVP_MAC_str2ctrl (some (⟨some macGood, some 7⟩ : EVP_MAC_CTX Nat)) 4
        (List.replicate (2 ^ 31) 104) = (-1, [])
  ∧ EVP_MAC_str2ctrl (some (⟨some macGood, some 7⟩ : EVP_MAC_CTX Nat)) 4
        [104, 105]
      = (1, [Ev.routerCtrl 4 ⟨[104, 105], 2⟩,
             Ev.descCtrl (some 7) 4 ⟨[104, 105], 2⟩]) := by
  refine ⟨?_, ?_⟩
  · exact (EVP_MAC_str2ctrl_spec (some ⟨some macGood, some 7⟩) 4
      (List.replicate (2 ^ 31) 104)).1 (by norm_num [INT_MAX])
  · simpa using (EVP_MAC_str2ctrl_spec (some ⟨some macGood, some 7⟩) 4
      [104, 105]).2 (by norm_num [INT_MAX])

/-- Claim C9: Size returns the descriptor's size entry applied to the private
state when that state is present, and the sentinel 0 (a success, not an
error or crash) when it is absent. -/
theorem EVP_MAC_size_spec {D : Type} (c : EVP_MAC_CTX D) (m : EVP_MAC D)
    (d : D) (hm : c.meth = some m) :
    (c.data = some d →
        EVP_MAC_size c = Except.ok (m.size c.data, [Ev.descSize c.data]))
  ∧ (c.data = none → EVP_MAC_size c = Except.ok (0, [])) := by
  refine ⟨?_, ?_⟩
  · intro h
    simp [EVP_MAC_size, h, hm]
  · intro h
    simp [EVP_MAC_size, h]

/-- Witness for C9: with private state 7 present, Size returns the descriptor
size 16; with none it returns 0. -/
theorem EVP_MAC_size_spec_witness :
    EVP_MAC_size (⟨some macGood, some 7⟩ : EVP_MAC_CTX Nat)
      = Except.ok (16, [Ev.descSize (some 7)])
  ∧ EVP_MAC_size (⟨some macGood, none⟩ : EVP_MAC_CTX Nat)
      = Except.ok (0, []) := by
  refine ⟨?_, ?_⟩
  · simpa using (EVP_MAC_size_spec ⟨some macGood, some 7⟩ macGood 7 rfl).1 rfl
  · exact (EVP_MAC_size_spec ⟨some macGood, none⟩ macGood 7 rfl).2 rfl

/-- Claim C10: when duplication fails, Copy leaves the destination exactly as
the source's descriptor reference paired with a NULL private-state pointer -
the failed duplicate result is stored, not a dangling or source-aliased
pointer - so a subsequent Free on that destination releases only the context
without invoking destroy on anything, and a subsequent Reset returns 1
without any descriptor call. -/
theorem EVP_MAC_CTX_copy_failure_leaves_null {D : Type}
    (dst src : EVP_MAC_CTX D) (m : EVP_MAC D) (s : D)
    (hm : src.meth = some m) (hd : src.data = some s)
    (hc : m.copy s = none) :
    EVP_MAC_CTX_copy dst src
      = Except.ok (⟨src.meth, none⟩, 0, [Ev.descCopy s])
  ∧ EVP_MAC_CTX_free (some (⟨src.meth, none⟩ : EVP_MAC_CTX D))
      = Except.ok [Ev.releaseCtx]
  ∧ EVP_MAC_reset (⟨src.meth, none⟩ : EVP_MAC_CTX D)
      = Except.ok (1, []) := by
  refine ⟨?_, rfl, rfl⟩
  simp [EVP_MAC_CTX_copy, hd, hm, hc]

/-- Witness for C10: a failing duplicate of state 7 leaves the destination
with NULL private state, after which Free only releases the context and
Reset succeeds trivially. -/
theorem EVP_MAC_CTX_copy_failure_leaves_null_witness :
    EVP_MAC_CTX_copy (⟨some macCopyFails, some 3⟩ : EVP_MAC_CTX Nat)
        ⟨some macCopyFails, some 7⟩
      = Except.ok (⟨some macCopyFails, none⟩, 0, [Ev.descCopy 7])
  ∧ EVP_MAC_CTX_free (some (⟨some macCopyFails, none⟩ : EVP_MAC_CTX Nat))
      = Except.ok [Ev.releaseCtx]
  ∧ EVP_MAC_reset (⟨some macCopyFails, none⟩ : EVP_MAC_CTX Nat)
      = Except.ok (1, []) := by
  exact EVP_MAC_CTX_copy_failure_leaves_null ⟨some macCopyFails, some 3⟩
    ⟨some macCopyFails, some 7⟩ macCopyFails 7 rfl rfl rfl
